import Mathlib

set_option autoImplicit false

namespace RemindMe

/-- C0 data model. A reminder record: one row of the `reminders` table
(`DatabaseService.createTables`). Timestamps (`createdAt`, `triggeredAt`) are modelled
as `Nat` epoch milliseconds; the source stores `new Date().toISOString()` strings, an
order-preserving injective encoding of the same clock. Coordinates (`REAL` columns,
JS numbers) are modelled as `Rat`. `NULL`-able columns are `Option`. -/
structure Reminder where
  id : String
  title : String
  description : Option String
  latitude : Rat
  longitude : Rat
  radius : Int
  address : Option String
  isActive : Bool
  notificationTitle : String
  notificationBody : String
  createdAt : Nat
  triggeredAt : Option Nat
deriving Repr, DecidableEq

/-- The `reminders` table contents, in row-insertion order (`id` is the primary key). -/
abbrev ReminderTable := List Reminder

/-- The input to `DatabaseService.addReminder` (TypeScript `Omit<Reminder, 'id' | 'createdAt'>`
as actually populated by its callers: the insert statement writes exactly these nine columns). -/
structure ReminderInput where
  title : String
  description : Option String
  latitude : Rat
  longitude : Rat
  radius : Int
  address : Option String
  isActive : Bool
  notificationTitle : String
  notificationBody : String
deriving Repr, DecidableEq

/-- JS `value || null` applied to an optional string (`reminder.description || null`,
`reminder.address || null` in `addReminder`): the empty string is falsy and is coerced
to `null`. -/
def jsOrNull (o : Option String) : Option String :=
  match o with
  | some s => if s = "" then none else some s
  | none => none

/-- The generated id: `Date.now().toString() + Math.random().toString(36).substr(2, 9)`.
`now` is the clock reading (epoch ms); `rand` stands for the random base-36 suffix. -/
def genId (now : Nat) (rand : String) : String :=
  toString now ++ rand

/-- `DatabaseService.addReminder`. Checks `this.db` firsts; the `INSERT` can fail on a
primary-key collision or on an underlying write failure (`writeOk` models the latter).
Note the `|| null` coercion on `description` and `address`, and that `triggeredAt` is
not an inserted column (the new row has it `NULL`). Returns the new table and the id. -/
def addReminder (writeOk : Bool) (dbq : Option ReminderTable) (inp : ReminderInput)
    (now : Nat) (rand : String) : Except String (ReminderTable × String) :=
  match dbq with
  | none => Except.error ("Database not initialized")
  | some db =>
    let idv := genId now rand
    if db.any (fun r => r.id == idv) then Except.error ("UNIQUE constraint failed: reminders.id")
    else if !writeOk then Except.error ("StorageError")
    else
      let row : Reminder :=
        { id := idv
          title := inp.title
          description := jsOrNull inp.description
          latitude := inp.latitude
          longitude := inp.longitude
          radius := inp.radius
          address := jsOrNull inp.address
          isActive := inp.isActive
          notificationTitle := inp.notificationTitle
          notificationBody := inp.notificationBody
          createdAt := now
          triggeredAt := none }
      Except.ok (db ++ [row], idv)

/-- Insert a reminder into a list kept sorted by `createdAt` descending. -/
def insertByCreatedDesc (r : Reminder) : List Reminder → List Reminder
  | [] => [r]
  | x :: xs => if r.createdAt ≤ x.createdAt then x :: insertByCreatedDesc r xs else r :: x :: xs

/-- Sort by `createdAt` descending (the `ORDER BY createdAt DESC` of `getAllReminders`). -/
def sortByCreatedDesc (l : List Reminder) : List Reminder :=
  l.foldr insertByCreatedDesc []

/-- `DatabaseService.getAllReminders`: all rows ordered by `createdAt` descending. -/
def getAllReminders (dbq : Option ReminderTable) : Except String (List Reminder) :=
  match dbq with
  | none => Except.error ("Database not initialized")
  | some db => Except.ok (sortByCreatedDesc db)

/-- `DatabaseService.getReminder`: `SELECT * FROM reminders WHERE id = ?`, first row or
`null`. A missing row is `Except.ok none`, not an error. -/
def getReminder (dbq : Option ReminderTable) (idv : String) : Except String (Option Reminder) :=
  match dbq with
  | none => Except.error ("Database not initialized")
  | some db => Except.ok (db.find? (fun r => r.id == idv))

/-- The argument of `DatabaseService.updateReminder` (TypeScript `Partial<Reminder>`):
each field either absent/`undefined` (`none`) or supplied (`some`). The `id` key can be
present in the object but is explicitly skipped by the update loop. -/
structure ReminderPatch where
  id : Option String := none
  title : Option String := none
  description : Option String := none
  latitude : Option Rat := none
  longitude : Option Rat := none
  radius : Option Int := none
  address : Option String := none
  isActive : Option Bool := none
  notificationTitle : Option String := none
  notificationBody : Option String := none
  createdAt : Option Nat := none
  triggeredAt : Option Nat := none
deriving Repr, DecidableEq

/-- One `field = ?` entry of the dynamically built `UPDATE` statement. There is no `id`
constructor: the loop in `updateReminder` skips the `id` key. -/
inductive ColumnUpdate where
  | title (v : String)
  | description (v : String)
  | latitude (v : Rat)
  | longitude (v : Rat)
  | radius (v : Int)
  | address (v : String)
  | isActive (v : Bool)
  | notificationTitle (v : String)
  | notificationBody (v : String)
  | createdAt (v : Nat)
  | triggeredAt (v : Nat)
deriving Repr, DecidableEq

/-- Apply one column assignment to a row. -/
def applyColumn (r : Reminder) : ColumnUpdate → Reminder
  | ColumnUpdate.title v => { r with title := v }
  | ColumnUpdate.description v => { r with description := some v }
  | ColumnUpdate.latitude v => { r with latitude := v }
  | ColumnUpdate.longitude v => { r with longitude := v }
  | ColumnUpdate.radius v => { r with radius := v }
  | ColumnUpdate.address v => { r with address := some v }
  | ColumnUpdate.isActive v => { r with isActive := v }
  | ColumnUpdate.notificationTitle v => { r with notificationTitle := v }
  | ColumnUpdate.notificationBody v => { r with notificationBody := v }
  | ColumnUpdate.createdAt v => { r with createdAt := v }
  | ColumnUpdate.triggeredAt v => { r with triggeredAt := some v }

/-- The contribution of one object entry to the `fields` array: one `field = ?` item
when the value is defined, nothing when it is `undefined`/absent. -/
def colTitle (o : Option String) : List ColumnUpdate :=
  match o with | some v => [ColumnUpdate.title v] | none => []

/-- Entry contribution for the `description` key. -/
def colDescription (o : Option String) : List ColumnUpdate :=
  match o with | some v => [ColumnUpdate.description v] | none => []

/-- Entry contribution for the `latitude` key. -/
def colLatitude (o : Option Rat) : List ColumnUpdate :=
  match o with | some v => [ColumnUpdate.latitude v] | none => []

/-- Entry contribution for the `longitude` key. -/
def colLongitude (o : Option Rat) : List ColumnUpdate :=
  match o with | some v => [ColumnUpdate.longitude v] | none => []

/-- Entry contribution for the `radius` key. -/
def colRadius (o : Option Int) : List ColumnUpdate :=
  match o with | some v => [ColumnUpdate.radius v] | none => []

/-- Entry contribution for the `address` key. -/
def colAddress (o : Option String) : List ColumnUpdate :=
  match o with | some v => [ColumnUpdate.address v] | none => []

/-- Entry contribution for the `isActive` key (stored as 0/1, read back by `Boolean`,
an exact round trip). -/
def colIsActive (o : Option Bool) : List ColumnUpdate :=
  match o with | some v => [ColumnUpdate.isActive v] | none => []

/-- Entry contribution for the `notificationTitle` key. -/
def colNotificationTitle (o : Option String) : List ColumnUpdate :=
  match o with | some v => [ColumnUpdate.notificationTitle v] | none => []

/-- Entry contribution for the `notificationBody` key. -/
def colNotificationBody (o : Option String) : List ColumnUpdate :=
  match o with | some v => [ColumnUpdate.notificationBody v] | none => []

/-- Entry contribution for the `createdAt` key. -/
def colCreatedAt (o : Option Nat) : List ColumnUpdate :=
  match o with | some v => [ColumnUpdate.createdAt v] | none => []

/-- Entry contribution for the `triggeredAt` key. -/
def colTriggeredAt (o : Option Nat) : List ColumnUpdate :=
  match o with | some v => [ColumnUpdate.triggeredAt v] | none => []

/-- The `fields`/`values` arrays built by `updateReminder`'s `Object.entries` loop: one
entry per defined (non-`undefined`) field, with the `id` key skipped. Key order within
the object does not affect the result since keys are unique. -/
def buildColumns (p : ReminderPatch) : List ColumnUpdate :=
  colTitle p.title ++ (colDescription p.description ++ (colLatitude p.latitude ++
    (colLongitude p.longitude ++ (colRadius p.radius ++ (colAddress p.address ++
    (colIsActive p.isActive ++ (colNotificationTitle p.notificationTitle ++
    (colNotificationBody p.notificationBody ++ (colCreatedAt p.createdAt ++
    colTriggeredAt p.triggeredAt)))))))))

/-- `DatabaseService.updateReminder`. Builds the column list; if it is empty the method
returns before issuing any SQL (so it succeeds even when a write would fail); otherwise
runs `UPDATE reminders SET ... WHERE id = ?`, which rewrites every row whose `id`
matches (at most one, `id` being the primary key, but the model does not assume it). -/
def updateReminder (writeOk : Bool) (dbq : Option ReminderTable) (idv : String)
    (p : ReminderPatch) : Except String ReminderTable :=
  match dbq with
  | none => Except.error ("Database not initialized")
  | some db =>
    let cols := buildColumns p
    if cols.isEmpty then Except.ok db
    else if !writeOk then Except.error ("StorageError")
    else Except.ok (db.map (fun r => if r.id == idv then cols.foldl applyColumn r else r))

/-- `DatabaseService.deleteReminder`: `DELETE FROM reminders WHERE id = ?`; deleting a
missing id is a no-op. -/
def deleteReminder (writeOk : Bool) (dbq : Option ReminderTable) (idv : String) :
    Except String ReminderTable :=
  match dbq with
  | none => Except.error ("Database not initialized")
  | some db =>
    if !writeOk then Except.error ("StorageError")
    else Except.ok (db.filter (fun r => r.id != idv))

/-- `DatabaseService.markReminderAsTriggered`: wraps `updateReminder` with
`{ triggeredAt: new Date().toISOString() }`; `now` is that clock reading. -/
def markReminderAsTriggered (writeOk : Bool) (dbq : Option ReminderTable) (idv : String)
    (now : Nat) : Except String ReminderTable :=
  updateReminder writeOk dbq idv { triggeredAt := some now }

/-- Overwrite-if-supplied for a nullable column: a supplied value replaces the old one,
an absent value leaves it. -/
def optSet {α : Type} (o : Option α) (old : Option α) : Option α :=
  match o with
  | some v => some v
  | none => old

/-- The row produced by applying a patch to one matching row, described field by field:
each defined field is overwritten, every other field (including `id`, whose key the
update loop skips) keeps its old value. This is the specification-style description of
the update; `applyPatch_spec` proves the source's column-list fold equal to it. -/
def patchedReminder (p : ReminderPatch) (r : Reminder) : Reminder :=
  { r with
    title := p.title.getD r.title
    description := optSet p.description r.description
    latitude := p.latitude.getD r.latitude
    longitude := p.longitude.getD r.longitude
    radius := p.radius.getD r.radius
    address := optSet p.address r.address
    isActive := p.isActive.getD r.isActive
    notificationTitle := p.notificationTitle.getD r.notificationTitle
    notificationBody := p.notificationBody.getD r.notificationBody
    createdAt := p.createdAt.getD r.createdAt
    triggeredAt := optSet p.triggeredAt r.triggeredAt }

/-- The ephemeral region projection registered with the platform geofencing service
(`GeofenceRegion` in `types`, as built in `LocationService.startGeofencing`). -/
structure GeofenceRegion where
  identifier : String
  latitude : Rat
  longitude : Rat
  radius : Int
deriving Repr, DecidableEq

/-- The projection `reminder => ({ identifier, latitude, longitude, radius })` used by
`startGeofencing`. -/
def reminderToRegion (r : Reminder) : GeofenceRegion :=
  { identifier := r.id
    latitude := r.latitude
    longitude := r.longitude
    radius := r.radius }

/-- `LocationService.startGeofencing(reminders)`. When location services are not enabled
it warns and returns without touching the monitored set; otherwise it projects the
active reminders and calls `Location.startGeofencingAsync`, which replaces the task's
monitored-region set wholesale (`platformOk` models that call failing, in which case
the error is caught and the old set survives). The result is the monitored set after
the call. -/
def startGeofencing (locEnabled platformOk : Bool) (reminders : List Reminder)
    (monitored : List GeofenceRegion) : List GeofenceRegion :=
  if !locEnabled then monitored
  else
    let regions := (reminders.filter (fun r => r.isActive)).map reminderToRegion
    if platformOk then regions else monitored

/-- One entry of the `Location.reverseGeocodeAsync` result array (the three components
the source reads). -/
structure GeoAddress where
  street : Option String
  city : Option String
  region : Option String
deriving Repr, DecidableEq

/-- Decimal digits of `k` left-padded with zeros to 6 characters (the fraction part
produced by `toFixed(6)`; `k < 10^6`). -/
def pad6 (k : Nat) : String :=
  let s := toString k
  String.mk (List.replicate (6 - s.length) '0') ++ s

/-- `toFixed(6)` on a nonnegative number: scale by 10^6, round to the nearest integer
(ties away from zero, per the ECMAScript `Number.prototype.toFixed` rounding rule),
then print integer part, dot, zero-padded fraction. -/
def ratFixed6 (a : Rat) : String :=
  let n : Nat := (Rat.floor (a * 1000000 + 1 / 2)).toNat
  toString (n / 1000000) ++ "." ++ pad6 (n % 1000000)

/-- JS `x.toFixed(6)`: a leading minus sign for negative input, then the nonnegative
formatting (coordinates are far below the 10^21 threshold of the spec's other branch). -/
def jsToFixed6 (q : Rat) : String :=
  if q < 0 then ("-") ++ ratFixed6 (-q) else ratFixed6 q

/-- `LocationService.reverseGeocode(latitude, longitude)`. `lookupResult` is the outcome
of the `Location.reverseGeocodeAsync` call: an exception, or the result array. On an
exception or an empty array the method falls back to the fixed-6-decimals string; it
never itself throws (the whole body is inside `try`/`catch`). -/
def reverseGeocode (lookupResult : Except String (List GeoAddress)) (latitude longitude : Rat) :
    String :=
  match lookupResult with
  | Except.error _ => jsToFixed6 latitude ++ ", " ++ jsToFixed6 longitude
  | Except.ok [] => jsToFixed6 latitude ++ ", " ++ jsToFixed6 longitude
  | Except.ok (a :: _) =>
    ((a.street.getD ("")) ++ " " ++ (a.city.getD ("")) ++ " " ++ (a.region.getD (""))).trim

/-- A local notification as dispatched by `NotificationService.scheduleLocationNotification`:
`content.title`, `content.body`, and the reminder id carried in `content.data`. -/
structure LocalNotification where
  title : String
  body : String
  reminderId : String
deriving Repr, DecidableEq

/-- The notification content built for a reminder: `content.title` is the reminder's
`notificationTitle`, `content.body` its `notificationBody`, and `content.data` carries
the reminder id. -/
def notifOf (r : Reminder) : LocalNotification :=
  { title := r.notificationTitle, body := r.notificationBody, reminderId := r.id }

/-- `NotificationService.scheduleLocationNotification(reminder)`: schedules an immediate
notification (`trigger: null`) with the reminder's `notificationTitle`/`notificationBody`.
`dispatchOk` models the platform call outcome; on failure the method logs and rethrows,
so the failure propagates to the caller. `dispatched` is the list of notifications
delivered so far; the successful result appends exactly one. -/
def scheduleLocationNotification (dispatchOk : Bool) (r : Reminder)
    (dispatched : List LocalNotification) : Except String (List LocalNotification) :=
  if dispatchOk then Except.ok (dispatched ++ [notifOf r])
  else Except.error ("DispatchError")

/-- The state visible to the geofence-enter handler: the store (`none` when the database
was never initialized, as in a cold background relaunch) and the notifications
dispatched so far. -/
structure TriggerState where
  db : Option ReminderTable
  dispatched : List LocalNotification
deriving Repr, DecidableEq

/-- Observable effects of one `handleGeofenceEnter` run, in order. -/
inductive TriggerEffect where
  | dispatched (n : LocalNotification)
  | markedTriggered (idv : String) (time : Nat)
deriving Repr, DecidableEq

/-- The `try` block of `LocationService.handleGeofenceEnter`: look the reminder up by
region id; if found and active, dispatch the notification, then mark it triggered.
An error at any step carries the state and effects accumulated before the failure. -/
def handleGeofenceEnterBody (dispatchOk writeOk : Bool) (now : Nat) (reminderId : String)
    (st : TriggerState) : Except (TriggerState × List TriggerEffect × String)
      (TriggerState × List TriggerEffect) :=
  match getReminder st.db reminderId with
  | Except.error e => Except.error (st, [], e)
  | Except.ok none => Except.ok (st, [])
  | Except.ok (some r) =>
    if r.isActive then
      match scheduleLocationNotification dispatchOk r st.dispatched with
      | Except.error e => Except.error (st, [], e)
      | Except.ok dispatched1 =>
        let st1 : TriggerState := { st with dispatched := dispatched1 }
        let effs1 := [TriggerEffect.dispatched (notifOf r)]
        match markReminderAsTriggered writeOk st1.db reminderId now with
        | Except.error e => Except.error (st1, effs1, e)
        | Except.ok db1 =>
          Except.ok ({ st1 with db := some db1 },
            effs1 ++ [TriggerEffect.markedTriggered reminderId now])
    else Except.ok (st, [])

/-- `LocationService.handleGeofenceEnter(reminderId)`: the `try` block wrapped in the
`catch` that logs the error and returns normally, so the background task promise
resolves either way. -/
def handleGeofenceEnter (dispatchOk writeOk : Bool) (now : Nat) (reminderId : String)
    (st : TriggerState) : Except String (TriggerState × List TriggerEffect) :=
  match handleGeofenceEnterBody dispatchOk writeOk now reminderId st with
  | Except.ok res => Except.ok res
  | Except.error (st1, effs, _e) => Except.ok (st1, effs)

/-- Leading decimal-digit run of a character list, as a number; `none` when there is no
leading digit (the `NaN` case of `parseInt`). -/
def leadDigits (cs : List Char) : Option Nat :=
  let ds := cs.takeWhile Char.isDigit
  if ds.isEmpty then none
  else some (ds.foldl (fun acc c => 10 * acc + (c.toNat - 48)) 0)

/-- JS `parseInt(text)` restricted to its radix-10 behavior (the text of a numeric
keyboard field): skip leading whitespace, read an optional sign and the longest run of
decimal digits; `none` models `NaN`. -/
def jsParseIntDec (s : String) : Option Int :=
  let cs := s.data.dropWhile Char.isWhitespace
  match cs with
  | '-' :: rest => (leadDigits rest).map (fun n => -(n : Int))
  | '+' :: rest => (leadDigits rest).map (fun n => (n : Int))
  | _ => (leadDigits cs).map (fun n => (n : Int))

/-- The radius field's `onChangeText` handler in `EditReminderScreen`:
`const num = parseInt(text) || 0; setRadius(Math.max(10, Math.min(1000, num)))`.
(`parseInt` yielding `NaN` is replaced by 0 by the `|| 0`; a parsed 0 is already 0.) -/
def radiusOnChangeText (text : String) : Int :=
  let num : Int := (jsParseIntDec text).getD 0
  max 10 (min 1000 num)

/-- Sample active reminder used in concrete instantiations. -/
def sampleReminder : Reminder :=
  { id := "r1"
    title := "Grab keys"
    description := none
    latitude := 37
    longitude := -122
    radius := 50
    address := none
    isActive := true
    notificationTitle := "Do not forget!"
    notificationBody := "Grab your keys"
    createdAt := 3
    triggeredAt := none }

/-- Sample inactive reminder. -/
def inactiveReminder : Reminder :=
  { sampleReminder with id := "r2", isActive := false }

/-- Sample reminder whose `triggeredAt` is already set (to time 5). -/
def triggeredReminder : Reminder :=
  { sampleReminder with id := "r3", triggeredAt := some 5 }

/-- A create input whose optional `description` is the empty string (a perfectly typed
`Omit<Reminder, 'id' | 'createdAt'>` value). -/
def emptyDescInput : ReminderInput :=
  { title := "Keys"
    description := some ("")
    latitude := 1
    longitude := 2
    radius := 100
    address := none
    isActive := true
    notificationTitle := "NT"
    notificationBody := "NB" }

/-- A create input with non-empty optional fields. -/
def plainInput : ReminderInput :=
  { title := "Keys"
    description := some ("front door")
    latitude := 1
    longitude := 2
    radius := 100
    address := some ("1 Main St")
    isActive := true
    notificationTitle := "NT"
    notificationBody := "NB" }

/-- A patch that only retitles. -/
def titlePatch : ReminderPatch :=
  { title := some ("New title") }

/-- A patch that writes an older `triggeredAt` (time 3) than `triggeredReminder`'s. -/
def olderTriggeredPatch : ReminderPatch :=
  { triggeredAt := some 3 }

/-- The all-absent patch (an empty object, or one whose every value is `undefined`). -/
def emptyPatch : ReminderPatch := {}

/-- The patch `{ triggeredAt: now }` that `markReminderAsTriggered` passes to
`updateReminder`. -/
def trigPatch (now : Nat) : ReminderPatch := { triggeredAt := some now }

/-- The row persisted for `plainInput` with the radius entry "5" (clamped to 10), at
time 7 with random suffix `x`. -/
def recFromPlain5 : Reminder :=
  { id := "7x"
    title := "Keys"
    description := some ("front door")
    latitude := 1
    longitude := 2
    radius := 10
    address := some ("1 Main St")
    isActive := true
    notificationTitle := "NT"
    notificationBody := "NB"
    createdAt := 7
    triggeredAt := none }

/-- The row `addReminder` persists for `emptyDescInput` at time 7 with random suffix
`x`: note `description` comes out `NULL`, not the empty string that was supplied. -/
def recFromEmptyDesc : Reminder :=
  { id := "7x"
    title := "Keys"
    description := none
    latitude := 1
    longitude := 2
    radius := 100
    address := none
    isActive := true
    notificationTitle := "NT"
    notificationBody := "NB"
    createdAt := 7
    triggeredAt := none }

theorem colTitle_eq_nil {o : Option String} (h : colTitle o = []) : o = none := by
  cases o with
  | none => rfl
  | some v => simp [colTitle] at h

theorem colDescription_eq_nil {o : Option String} (h : colDescription o = []) : o = none := by
  cases o with
  | none => rfl
  | some v => simp [colDescription] at h

theorem colLatitude_eq_nil {o : Option Rat} (h : colLatitude o = []) : o = none := by
  cases o with
  | none => rfl
  | some v => simp [colLatitude] at h

theorem colLongitude_eq_nil {o : Option Rat} (h : colLongitude o = []) : o = none := by
  cases o with
  | none => rfl
  | some v => simp [colLongitude] at h

theorem colRadius_eq_nil {o : Option Int} (h : colRadius o = []) : o = none := by
  cases o with
  | none => rfl
  | some v => simp [colRadius] at h

theorem colAddress_eq_nil {o : Option String} (h : colAddress o = []) : o = none := by
  cases o with
  | none => rfl
  | some v => simp [colAddress] at h

theorem colIsActive_eq_nil {o : Option Bool} (h : colIsActive o = []) : o = none := by
  cases o with
  | none => rfl
  | some v => simp [colIsActive] at h

theorem colNotificationTitle_eq_nil {o : Option String} (h : colNotificationTitle o = []) :
    o = none := by
  cases o with
  | none => rfl
  | some v => simp [colNotificationTitle] at h

theorem colNotificationBody_eq_nil {o : Option String} (h : colNotificationBody o = []) :
    o = none := by
  cases o with
  | none => rfl
  | some v => simp [colNotificationBody] at h

theorem colCreatedAt_eq_nil {o : Option Nat} (h : colCreatedAt o = []) : o = none := by
  cases o with
  | none => rfl
  | some v => simp [colCreatedAt] at h

theorem colTriggeredAt_eq_nil {o : Option Nat} (h : colTriggeredAt o = []) : o = none := by
  cases o with
  | none => rfl
  | some v => simp [colTriggeredAt] at h

theorem foldCols11 (ota : Option Nat) (r : Reminder) :
    (colTriggeredAt ota).foldl applyColumn r =
      { r with
        triggeredAt := optSet ota r.triggeredAt } := by
  cases ota <;> rfl

theorem foldCols10 (oca ota : Option Nat) (r : Reminder) :
    (colCreatedAt oca ++ colTriggeredAt ota).foldl applyColumn r =
      { r with
        createdAt := oca.getD r.createdAt
        triggeredAt := optSet ota r.triggeredAt } := by
  rw [List.foldl_append, foldCols11]
  cases oca <;> rfl

theorem foldCols9 (onb : Option String) (oca ota : Option Nat) (r : Reminder) :
    (colNotificationBody onb ++ (colCreatedAt oca ++ colTriggeredAt ota)).foldl applyColumn r =
      { r with
        notificationBody := onb.getD r.notificationBody
        createdAt := oca.getD r.createdAt
        triggeredAt := optSet ota r.triggeredAt } := by
  rw [List.foldl_append, foldCols10]
  cases onb <;> rfl

theorem foldCols8 (ont onb : Option String) (oca ota : Option Nat) (r : Reminder) :
    (colNotificationTitle ont ++ (colNotificationBody onb ++
      (colCreatedAt oca ++ colTriggeredAt ota))).foldl applyColumn r =
      { r with
        notificationTitle := ont.getD r.notificationTitle
        notificationBody := onb.getD r.notificationBody
        createdAt := oca.getD r.createdAt
        triggeredAt := optSet ota r.triggeredAt } := by
  rw [List.foldl_append, foldCols9]
  cases ont <;> rfl

theorem foldCols7 (oia : Option Bool) (ont onb : Option String) (oca ota : Option Nat)
    (r : Reminder) :
    (colIsActive oia ++ (colNotificationTitle ont ++ (colNotificationBody onb ++
      (colCreatedAt oca ++ colTriggeredAt ota)))).foldl applyColumn r =
      { r with
        isActive := oia.getD r.isActive
        notificationTitle := ont.getD r.notificationTitle
        notificationBody := onb.getD r.notificationBody
        createdAt := oca.getD r.createdAt
        triggeredAt := optSet ota r.triggeredAt } := by
  rw [List.foldl_append, foldCols8]
  cases oia <;> rfl

theorem foldCols6 (oad : Option String) (oia : Option Bool) (ont onb : Option String)
    (oca ota : Option Nat) (r : Reminder) :
    (colAddress oad ++ (colIsActive oia ++ (colNotificationTitle ont ++
      (colNotificationBody onb ++ (colCreatedAt oca ++ colTriggeredAt ota))))).foldl
        applyColumn r =
      { r with
        address := optSet oad r.address
        isActive := oia.getD r.isActive
        notificationTitle := ont.getD r.notificationTitle
        notificationBody := onb.getD r.notificationBody
        createdAt := oca.getD r.createdAt
        triggeredAt := optSet ota r.triggeredAt } := by
  rw [List.foldl_append, foldCols7]
  cases oad <;> rfl

theorem foldCols5 (ora : Option Int) (oad : Option String) (oia : Option Bool)
    (ont onb : Option String) (oca ota : Option Nat) (r : Reminder) :
    (colRadius ora ++ (colAddress oad ++ (colIsActive oia ++ (colNotificationTitle ont ++
      (colNotificationBody onb ++ (colCreatedAt oca ++ colTriggeredAt ota)))))).foldl
        applyColumn r =
      { r with
        radius := ora.getD r.radius
        address := optSet oad r.address
        isActive := oia.getD r.isActive
        notificationTitle := ont.getD r.notificationTitle
        notificationBody := onb.getD r.notificationBody
        createdAt := oca.getD r.createdAt
        triggeredAt := optSet ota r.triggeredAt } := by
  rw [List.foldl_append, foldCols6]
  cases ora <;> rfl

theorem foldCols4 (olo : Option Rat) (ora : Option Int) (oad : Option String)
    (oia : Option Bool) (ont onb : Option String) (oca ota : Option Nat) (r : Reminder) :
    (colLongitude olo ++ (colRadius ora ++ (colAddress oad ++ (colIsActive oia ++
      (colNotificationTitle ont ++ (colNotificationBody onb ++
      (colCreatedAt oca ++ colTriggeredAt ota))))))).foldl applyColumn r =
      { r with
        longitude := olo.getD r.longitude
        radius := ora.getD r.radius
        address := optSet oad r.address
        isActive := oia.getD r.isActive
        notificationTitle := ont.getD r.notificationTitle
        notificationBody := onb.getD r.notificationBody
        createdAt := oca.getD r.createdAt
        triggeredAt := optSet ota r.triggeredAt } := by
  rw [List.foldl_append, foldCols5]
  cases olo <;> rfl

theorem foldCols3 (ola olo : Option Rat) (ora : Option Int) (oad : Option String)
    (oia : Option Bool) (ont onb : Option String) (oca ota : Option Nat) (r : Reminder) :
    (colLatitude ola ++ (colLongitude olo ++ (colRadius ora ++ (colAddress oad ++
      (colIsActive oia ++ (colNotificationTitle ont ++ (colNotificationBody onb ++
      (colCreatedAt oca ++ colTriggeredAt ota)))))))).foldl applyColumn r =
      { r with
        latitude := ola.getD r.latitude
        longitude := olo.getD r.longitude
        radius := ora.getD r.radius
        address := optSet oad r.address
        isActive := oia.getD r.isActive
        notificationTitle := ont.getD r.notificationTitle
        notificationBody := onb.getD r.notificationBody
        createdAt := oca.getD r.createdAt
        triggeredAt := optSet ota r.triggeredAt } := by
  rw [List.foldl_append, foldCols4]
  cases ola <;> rfl

theorem foldCols2 (ode : Option String) (ola olo : Option Rat) (ora : Option Int)
    (oad : Option String) (oia : Option Bool) (ont onb : Option String)
    (oca ota : Option Nat) (r : Reminder) :
    (colDescription ode ++ (colLatitude ola ++ (colLongitude olo ++ (colRadius ora ++
      (colAddress oad ++ (colIsActive oia ++ (colNotificationTitle ont ++
      (colNotificationBody onb ++ (colCreatedAt oca ++ colTriggeredAt ota))))))))).foldl
        applyColumn r =
      { r with
        description := optSet ode r.description
        latitude := ola.getD r.latitude
        longitude := olo.getD r.longitude
        radius := ora.getD r.radius
        address := optSet oad r.address
        isActive := oia.getD r.isActive
        notificationTitle := ont.getD r.notificationTitle
        notificationBody := onb.getD r.notificationBody
        createdAt := oca.getD r.createdAt
        triggeredAt := optSet ota r.triggeredAt } := by
  rw [List.foldl_append, foldCols3]
  cases ode <;> rfl

theorem applyPatch_spec (p : ReminderPatch) (r : Reminder) :
    (buildColumns p).foldl applyColumn r = patchedReminder p r := by
  show (colTitle p.title ++ _).foldl applyColumn r = _
  rw [List.foldl_append, foldCols2]
  cases hp : p.title <;> simp only [patchedReminder, hp, Option.getD_none, Option.getD_some] <;>
    rfl

theorem patchedReminder_of_nil_cols (p : ReminderPatch) (h : buildColumns p = [])
    (r : Reminder) : patchedReminder p r = r := by
  simp only [buildColumns, List.append_eq_nil] at h
  obtain ⟨h1, h2, h3, h4, h5, h6, h7, h8, h9, h10, h11⟩ := h
  rw [patchedReminder, colTitle_eq_nil h1, colDescription_eq_nil h2, colLatitude_eq_nil h3,
    colLongitude_eq_nil h4, colRadius_eq_nil h5, colAddress_eq_nil h6, colIsActive_eq_nil h7,
    colNotificationTitle_eq_nil h8, colNotificationBody_eq_nil h9, colCreatedAt_eq_nil h10,
    colTriggeredAt_eq_nil h11]
  rfl

theorem updateReminder_some_eq (db : ReminderTable) (idv : String) (p : ReminderPatch) :
    updateReminder true (some db) idv p =
      Except.ok (db.map (fun r => if r.id == idv then patchedReminder p r else r)) := by
  show (if (buildColumns p).isEmpty then _ else _) = _
  by_cases hc : (buildColumns p).isEmpty
  · rw [if_pos hc]
    have hnil : buildColumns p = [] := List.isEmpty_iff.mp hc
    have hr : ∀ r : Reminder, (if (r.id == idv) = true then patchedReminder p r else r) = r := by
      intro r
      rw [patchedReminder_of_nil_cols p hnil r, ite_self]
    congr 1
    have hmap : ∀ l : List Reminder,
        List.map (fun r => if (r.id == idv) = true then patchedReminder p r else r) l = l := by
      intro l
      induction l with
      | nil => rfl
      | cons x xs ih => simp only [List.map, hr x, ih]
    exact (hmap db).symm
  · rw [if_neg hc]
    rw [if_neg (by decide : ¬((!true) = true))]
    congr 1
    have hmap2 : ∀ l : List Reminder,
        List.map (fun r =>
          if (r.id == idv) = true then List.foldl applyColumn r (buildColumns p) else r) l =
        List.map (fun r => if (r.id == idv) = true then patchedReminder p r else r) l := by
      intro l
      induction l with
      | nil => rfl
      | cons x xs ih =>
        simp only [List.map, ih]
        congr 1
        by_cases hid : (x.id == idv) = true
        · rw [if_pos hid, if_pos hid, applyPatch_spec]
        · rw [if_neg hid, if_neg hid]
    exact hmap2 db

theorem patchedReminder_id (p : ReminderPatch) (r : Reminder) :
    (patchedReminder p r).id = r.id := rfl

theorem patchedReminder_triggeredAt_isSome (p : ReminderPatch) (r : Reminder)
    (h : r.triggeredAt.isSome = true) :
    (patchedReminder p r).triggeredAt.isSome = true := by
  show (optSet p.triggeredAt r.triggeredAt).isSome = true
  cases hp : p.triggeredAt
  · rw [optSet]; exact h
  · rfl

theorem find?_map_preserving (pred : Reminder → Bool) (f : Reminder → Reminder)
    (hf : ∀ x, pred (f x) = pred x) :
    ∀ (db : List Reminder) (r : Reminder), db.find? pred = some r →
      (db.map f).find? pred = some (f r) := by
  intro db
  induction db with
  | nil => intro r h; simp [List.find?] at h
  | cons x xs ih =>
    intro r h
    simp only [List.map, List.find?]
    rw [hf x]
    cases hx : pred x
    · rw [List.find?] at h
      rw [hx] at h
      exact ih r h
    · rw [List.find?] at h
      rw [hx] at h
      cases h
      rfl

theorem find?_append_none (pred : Reminder → Bool) :
    ∀ (l m : List Reminder), (∀ x ∈ l, pred x = false) →
      (l ++ m).find? pred = m.find? pred := by
  intro l
  induction l with
  | nil => intro m _; rfl
  | cons x xs ih =>
    intro m h
    simp only [List.cons_append, List.find?]
    rw [h x (by simp)]
    exact ih m (fun y hy => h y (by simp [hy]))

theorem toDigitsCore_len_mono (b fuel : Nat) : ∀ (n : Nat) (ds : List Char),
    ds.length ≤ (Nat.toDigitsCore b fuel n ds).length := by
  induction fuel with
  | zero => intro n ds; simp [Nat.toDigitsCore]
  | succ f ih =>
    intro n ds
    simp only [Nat.toDigitsCore]
    by_cases h : n / b = 0
    · simp [h]
    · simp only [h, if_false]
      calc ds.length ≤ (Nat.digitChar (n % b) :: ds).length := by simp
        _ ≤ _ := ih (n / b) (Nat.digitChar (n % b) :: ds)

theorem toDigitsCore_len_pos (b f n : Nat) (ds : List Char) :
    ds.length + 1 ≤ (Nat.toDigitsCore b (f + 1) n ds).length := by
  simp only [Nat.toDigitsCore]
  by_cases h : n / b = 0
  · simp [h]
  · simp only [h, if_false]
    calc ds.length + 1 = (Nat.digitChar (n % b) :: ds).length := by simp
      _ ≤ _ := toDigitsCore_len_mono b f (n / b) _

theorem natToString_length_pos (n : Nat) : 0 < (toString n).length := by
  show 0 < (Nat.repr n).length
  simp only [Nat.repr, Nat.toDigits, List.asString, String.length]
  simpa using toDigitsCore_len_pos 10 n n []

theorem genId_ne_empty (now : Nat) (rand : String) : genId now rand ≠ "" := by
  intro h
  have hl := congrArg String.length h
  rw [genId, String.length_append] at hl
  have := natToString_length_pos now
  simp at hl
  omega

/-- C10: every Reminder Store operation (create, getAll, get, update, delete, and
markTriggered via update) fails with the `Database not initialized` error when invoked
before `initialize()` has opened the database; none lazily initializes the database or
degrades to a not-found/no-op result. -/
theorem storeOps_require_initialized_db :
    (∀ (writeOk : Bool) (inp : ReminderInput) (now : Nat) (rand : String),
      addReminder writeOk none inp now rand = Except.error ("Database not initialized")) ∧
    getAllReminders none = Except.error ("Database not initialized") ∧
    (∀ idv : String, getReminder none idv = Except.error ("Database not initialized")) ∧
    (∀ (writeOk : Bool) (idv : String) (p : ReminderPatch),
      updateReminder writeOk none idv p = Except.error ("Database not initialized")) ∧
    (∀ (writeOk : Bool) (idv : String),
      deleteReminder writeOk none idv = Except.error ("Database not initialized")) ∧
    (∀ (writeOk : Bool) (idv : String) (now : Nat),
      markReminderAsTriggered writeOk none idv now =
        Except.error ("Database not initialized")) :=
  ⟨fun _ _ _ _ => rfl, rfl, fun _ => rfl, fun _ _ _ => rfl, fun _ _ => rfl, fun _ _ _ => rfl⟩

/-- C3: for every reminder list (with location services enabled and the platform call
succeeding), `startGeofencing` registers exactly the GeofenceRegion projections of the
reminders whose `isActive` is true, replacing whatever set was previously monitored;
inactive reminders contribute no region. -/
theorem startGeofencing_registers_exactly_active :
    ∀ (reminders : List Reminder) (monitored : List GeofenceRegion),
      startGeofencing true true reminders monitored =
        (reminders.filter (fun r => r.isActive)).map reminderToRegion ∧
      (∀ g : GeofenceRegion, g ∈ startGeofencing true true reminders monitored ↔
        ∃ r, r ∈ reminders ∧ r.isActive = true ∧ reminderToRegion r = g) := by
  intro reminders monitored
  refine ⟨rfl, ?_⟩
  intro g
  show g ∈ (reminders.filter (fun r => r.isActive)).map reminderToRegion ↔ _
  simp only [List.mem_map, List.mem_filter]
  constructor
  · rintro ⟨r, ⟨hmem, hact⟩, hproj⟩
    exact ⟨r, hmem, hact, hproj⟩
  · rintro ⟨r, hmem, hact, hproj⟩
    exact ⟨r, ⟨hmem, hact⟩, hproj⟩

/-- C3 witness: a concrete active/inactive pair registers exactly the active
projection. -/
theorem startGeofencing_registers_exactly_active_witness :
    startGeofencing true true [sampleReminder, inactiveReminder] [] =
      [reminderToRegion sampleReminder] ∧
    (reminderToRegion inactiveReminder ∈
      startGeofencing true true [sampleReminder, inactiveReminder] [] ↔
      ∃ r, r ∈ [sampleReminder, inactiveReminder] ∧ r.isActive = true ∧
        reminderToRegion r = reminderToRegion inactiveReminder) := by
  have h := startGeofencing_registers_exactly_active [sampleReminder, inactiveReminder] []
  exact ⟨h.1.trans (by rfl), h.2 (reminderToRegion inactiveReminder)⟩

/-- C6: `updateReminder` applies exactly the supplied defined fields to the rows whose
id matches and leaves every other field and every other row unchanged; a call with an
empty field set, or one whose every value is undefined, is a no-op that still succeeds
(it returns before touching the database, so it succeeds even if a write would fail);
undefined fields are ignored, not erased. -/
theorem updateReminder_exact_fields_and_frame :
    ∀ (db : ReminderTable) (idv : String) (p : ReminderPatch),
      updateReminder true (some db) idv p =
        Except.ok (db.map (fun r => if r.id == idv then patchedReminder p r else r)) ∧
      (∀ writeOk : Bool, buildColumns p = [] →
        updateReminder writeOk (some db) idv p = Except.ok db) ∧
      (∀ writeOk : Bool, updateReminder writeOk (some db) idv emptyPatch = Except.ok db) := by
  intro db idv p
  refine ⟨updateReminder_some_eq db idv p, ?_, ?_⟩
  · intro writeOk hnil
    have hemp : (buildColumns p).isEmpty = true := by rw [hnil]; rfl
    simp only [updateReminder, hemp, if_true]
  · intro writeOk
    have hemp : (buildColumns emptyPatch).isEmpty = true := rfl
    simp only [updateReminder, hemp, if_true]

/-- C6 witness: retitling `sampleReminder` changes only its title; the empty patch
succeeds even when writes fail. -/
theorem updateReminder_exact_fields_and_frame_witness :
    updateReminder true (some [sampleReminder]) "r1" titlePatch =
      Except.ok [{ sampleReminder with title := "New title" }] ∧
    updateReminder false (some [sampleReminder]) "r1" emptyPatch =
      Except.ok [sampleReminder] := by
  have h := updateReminder_exact_fields_and_frame [sampleReminder] "r1" titlePatch
  exact ⟨h.1.trans (by rfl),
    (updateReminder_exact_fields_and_frame [sampleReminder] "r1" emptyPatch).2.2 false⟩

/-- C7 counterexample: `updateReminder` does not enforce monotonicity of `triggeredAt`.
On a record whose `triggeredAt` is 5, an update supplying `triggeredAt := 3` stores the
strictly older timestamp 3, so "update ... can only replace it with a newer timestamp"
is false. -/
theorem updateReminder_can_write_older_triggeredAt :
    triggeredReminder.triggeredAt = some 5 ∧
    updateReminder true (some [triggeredReminder]) ("r3") olderTriggeredPatch =
      Except.ok [{ triggeredReminder with triggeredAt := some 3 }] ∧
    (3 : Nat) < 5 :=
  ⟨rfl, rfl, by norm_num⟩

/-- C7 amended: once `triggeredAt` is set, no `updateReminder` or
`markReminderAsTriggered` call ever returns it to unset: an update either leaves it
alone (when the patch omits it) or overwrites it with the supplied value, which need
not be newer; `markReminderAsTriggered` overwrites it with the supplied current time;
only full record deletion removes it. -/
theorem triggeredAt_never_unset :
    (∀ (writeOk : Bool) (db db' : ReminderTable) (idv : String) (p : ReminderPatch),
      updateReminder writeOk (some db) idv p = Except.ok db' →
      db'.length = db.length ∧
      ∀ (k : Nat) (hk : k < db.length) (hk' : k < db'.length),
        (db.get ⟨k, hk⟩).triggeredAt.isSome = true →
        (db'.get ⟨k, hk'⟩).triggeredAt.isSome = true) ∧
    (∀ (db db' : ReminderTable) (idv : String) (now : Nat),
      markReminderAsTriggered true (some db) idv now = Except.ok db' →
      ∀ (k : Nat) (hk : k < db.length) (hk' : k < db'.length),
        (db.get ⟨k, hk⟩).id = idv → (db'.get ⟨k, hk'⟩).triggeredAt = some now) := by
  constructor
  · intro writeOk db db' idv p h
    simp only [updateReminder] at h
    by_cases hc : (buildColumns p).isEmpty
    · rw [if_pos hc] at h
      obtain rfl : db = db' := Except.ok.inj h
      exact ⟨rfl, fun k hk hk' hs => hs⟩
    · rw [if_neg hc] at h
      cases writeOk
      · rw [if_pos (by decide : ((!false) = true))] at h
        exact Except.noConfusion h
      · rw [if_neg (by decide : ¬((!true) = true))] at h
        obtain rfl : db.map (fun r => if r.id == idv then
            (buildColumns p).foldl applyColumn r else r) = db' := Except.ok.inj h
        refine ⟨List.length_map _ _, ?_⟩
        intro k hk hk' hs
        rw [List.get_eq_getElem, List.getElem_map]
        by_cases hid : ((db.get ⟨k, hk⟩).id == idv) = true
        · rw [List.get_eq_getElem] at hid hs
          rw [if_pos hid, applyPatch_spec]
          exact patchedReminder_triggeredAt_isSome p _ hs
        · rw [List.get_eq_getElem] at hid hs
          rw [if_neg hid]
          exact hs
  · intro db db' idv now h
    rw [markReminderAsTriggered, updateReminder_some_eq] at h
    obtain rfl : db.map (fun r => if r.id == idv then
        patchedReminder { triggeredAt := some now } r else r) = db' := Except.ok.inj h
    intro k hk hk' hid
    rw [List.get_eq_getElem, List.getElem_map]
    rw [List.get_eq_getElem] at hid
    rw [if_pos (by rw [hid]; exact beq_self_eq_true idv)]
    rfl

/-- C7 witness: a title-only update on a record with `triggeredAt = some 5` keeps it
set, and marking `sampleReminder` triggered at time 9 sets `triggeredAt = some 9`. -/
theorem triggeredAt_never_unset_witness :
    ([{ triggeredReminder with title := "New title" }] : ReminderTable).length =
      ([triggeredReminder] : ReminderTable).length ∧
    (([{ triggeredReminder with title := "New title" }] : ReminderTable).get
      ⟨0, by norm_num⟩).triggeredAt.isSome = true ∧
    (([{ sampleReminder with triggeredAt := some 9 }] : ReminderTable).get
      ⟨0, by norm_num⟩).triggeredAt = some 9 := by
  have h1 := triggeredAt_never_unset.1 true [triggeredReminder]
    [{ triggeredReminder with title := "New title" }] ("r3") titlePatch (by rfl)
  have h2 := triggeredAt_never_unset.2 [sampleReminder]
    [{ sampleReminder with triggeredAt := some 9 }] ("r1") 9 (by rfl)
  exact ⟨h1.1, h1.2 0 (by norm_num) (by norm_num) (by rfl),
    h2 0 (by norm_num) (by norm_num) (by rfl)⟩

/-- C2 counterexample: a valid input whose optional `description` is the empty string
does not round-trip: `addReminder` coerces it to `NULL` (`reminder.description || null`),
so the record `get` returns is not equal to the input on the `description` field. -/
theorem addReminder_empty_description_no_roundtrip :
    emptyDescInput.description = some ("") ∧
    addReminder true (some []) emptyDescInput 7 ("x") =
      Except.ok ([recFromEmptyDesc], "7x") ∧
    getReminder (some [recFromEmptyDesc]) ("7x") = Except.ok (some recFromEmptyDesc) ∧
    recFromEmptyDesc.description = none ∧
    recFromEmptyDesc.description ≠ emptyDescInput.description :=
  ⟨rfl, rfl, rfl, rfl, by simp [recFromEmptyDesc, emptyDescInput]⟩

/-- C2 amended: for every valid reminder field set whose optional `description` and
`address` are either absent or non-empty (the store coerces empty strings to `NULL`),
and whose generated id does not collide with an existing row, `create` followed by
`get` on the returned id yields a record equal to the input fields plus a non-empty id
and a `createdAt` timestamp (and an unset `triggeredAt`). -/
theorem addReminder_then_get_roundtrip (inp : ReminderInput) (now : Nat) (rand : String)
    (db : ReminderTable) (hfresh : ∀ r ∈ db, r.id ≠ genId now rand)
    (hdesc : inp.description ≠ some ("")) (haddr : inp.address ≠ some ("")) :
    ∃ rec : Reminder,
      addReminder true (some db) inp now rand = Except.ok (db ++ [rec], genId now rand) ∧
      getReminder (some (db ++ [rec])) (genId now rand) = Except.ok (some rec) ∧
      rec.id = genId now rand ∧ rec.id ≠ "" ∧ rec.createdAt = now ∧
      rec.title = inp.title ∧ rec.description = inp.description ∧
      rec.latitude = inp.latitude ∧ rec.longitude = inp.longitude ∧
      rec.radius = inp.radius ∧ rec.address = inp.address ∧
      rec.isActive = inp.isActive ∧ rec.notificationTitle = inp.notificationTitle ∧
      rec.notificationBody = inp.notificationBody ∧ rec.triggeredAt = none := by
  have hdesc' : jsOrNull inp.description = inp.description := by
    cases hd : inp.description with
    | none => rfl
    | some s =>
      have hs : ¬s = "" := fun he => hdesc (by rw [hd, he])
      simp [jsOrNull, hs]
  have haddr' : jsOrNull inp.address = inp.address := by
    cases hd : inp.address with
    | none => rfl
    | some s =>
      have hs : ¬s = "" := fun he => haddr (by rw [hd, he])
      simp [jsOrNull, hs]
  have hany : db.any (fun r => r.id == genId now rand) = false := by
    rw [List.any_eq_false]
    intro r hr
    simpa using hfresh r hr
  refine ⟨{ id := genId now rand
            title := inp.title
            description := jsOrNull inp.description
            latitude := inp.latitude
            longitude := inp.longitude
            radius := inp.radius
            address := jsOrNull inp.address
            isActive := inp.isActive
            notificationTitle := inp.notificationTitle
            notificationBody := inp.notificationBody
            createdAt := now
            triggeredAt := none }, ?_, ?_, rfl, genId_ne_empty now rand, rfl, rfl, hdesc',
    rfl, rfl, rfl, haddr', rfl, rfl, rfl, rfl⟩
  · simp only [addReminder, hany]
    rw [if_neg (by simp : ¬(false = true)), if_neg (by decide : ¬((!true) = true))]
  · simp only [getReminder]
    congr 1
    rw [find?_append_none _ db _ (fun x hx => by simpa using hfresh x hx)]
    simp [List.find?]

/-- C2 witness: a concrete create with non-empty optional fields round-trips. -/
theorem addReminder_then_get_roundtrip_witness :
    (∀ r ∈ ([] : ReminderTable), r.id ≠ genId 7 ("x")) ∧
    plainInput.description ≠ some ("") ∧ plainInput.address ≠ some ("") ∧
    (∃ rec : Reminder,
      addReminder true (some []) plainInput 7 ("x") =
        Except.ok ([] ++ [rec], genId 7 ("x")) ∧
      getReminder (some ([] ++ [rec])) (genId 7 ("x")) = Except.ok (some rec) ∧
      rec.id = genId 7 ("x") ∧ rec.id ≠ "" ∧ rec.createdAt = 7 ∧
      rec.title = plainInput.title ∧ rec.description = plainInput.description ∧
      rec.latitude = plainInput.latitude ∧ rec.longitude = plainInput.longitude ∧
      rec.radius = plainInput.radius ∧ rec.address = plainInput.address ∧
      rec.isActive = plainInput.isActive ∧
      rec.notificationTitle = plainInput.notificationTitle ∧
      rec.notificationBody = plainInput.notificationBody ∧ rec.triggeredAt = none) :=
  ⟨by simp, by simp [plainInput], by simp [plainInput],
    addReminder_then_get_roundtrip plainInput 7 ("x") [] (by simp)
      (by simp [plainInput]) (by simp [plainInput])⟩

/-- C8: the radius entry handler clamps every requested value into [10, 1000] (entering
5 stores 10, entering 2000 stores 1000), and `addReminder` persists the radius
unchanged, so every reminder persisted from a clamped entry has its radius in
[10, 1000]. -/
theorem radius_clamped_into_range :
    (∀ s : String, 10 ≤ radiusOnChangeText s ∧ radiusOnChangeText s ≤ 1000) ∧
    radiusOnChangeText ("5") = 10 ∧ radiusOnChangeText ("2000") = 1000 ∧
    (∀ (inp : ReminderInput) (now : Nat) (rand text : String)
      (db newDb : ReminderTable) (newId : String),
      inp.radius = radiusOnChangeText text →
      addReminder true (some db) inp now rand = Except.ok (newDb, newId) →
      ∀ r ∈ newDb, r ∈ db ∨ (10 ≤ r.radius ∧ r.radius ≤ 1000)) := by
  have hbounds : ∀ s : String, 10 ≤ radiusOnChangeText s ∧ radiusOnChangeText s ≤ 1000 := by
    intro s
    refine ⟨le_max_left 10 _, max_le (by norm_num) (min_le_left 1000 _)⟩
  refine ⟨hbounds, by decide, by decide, ?_⟩
  intro inp now rand text db newDb newId hrad hadd r hr
  simp only [addReminder] at hadd
  by_cases hany : db.any (fun x => x.id == genId now rand) = true
  · rw [if_pos hany] at hadd
    exact Except.noConfusion hadd
  · rw [if_neg hany, if_neg (by decide : ¬((!true) = true))] at hadd
    obtain ⟨hdb, -⟩ := Prod.mk.injEq .. ▸ Except.ok.inj hadd
    rw [← hdb] at hr
    rcases List.mem_append.mp hr with hin | hin
    · exact Or.inl hin
    · right
      have : r.radius = inp.radius := by
        rcases List.mem_singleton.mp hin with rfl
        rfl
      rw [this, hrad]
      exact hbounds text

/-- C8 witness: entering 5 yields a stored radius of 10 on a concrete create. -/
theorem radius_clamped_into_range_witness :
    ({ plainInput with radius := radiusOnChangeText ("5") } : ReminderInput).radius =
      radiusOnChangeText ("5") ∧
    (∀ r ∈ ([recFromPlain5] : ReminderTable),
      r ∈ ([] : ReminderTable) ∨ (10 ≤ r.radius ∧ r.radius ≤ 1000)) := by
  refine ⟨rfl, ?_⟩
  exact radius_clamped_into_range.2.2.2 { plainInput with radius := radiusOnChangeText ("5") }
    7 ("x") ("5") [] [recFromPlain5] ("7x") rfl (by rfl)

/-- C9: whenever the reverse-geocoding lookup raises an error or returns no result,
`reverseGeocode` returns the latitude fixed to 6 decimal places, a comma and a space,
and the longitude fixed to 6 decimal places; the function is total (the whole body sits
inside the `try`/`catch`), so it raises no error. -/
theorem reverseGeocode_fallback_format (latitude longitude : Rat)
    (res : Except String (List GeoAddress))
    (h : (∃ e, res = Except.error e) ∨ res = Except.ok []) :
    reverseGeocode res latitude longitude =
      jsToFixed6 latitude ++ ", " ++ jsToFixed6 longitude := by
  rcases h with ⟨e, rfl⟩ | rfl <;> rfl

/-- C9 witness: a failed lookup at (37, -122) produces the formatted fallback. -/
theorem reverseGeocode_fallback_format_witness :
    ((∃ e, (Except.error ("lookup failed") : Except String (List GeoAddress)) =
      Except.error e) ∨
      (Except.error ("lookup failed") : Except String (List GeoAddress)) = Except.ok []) ∧
    reverseGeocode (Except.error ("lookup failed")) 37 (-122) =
      jsToFixed6 37 ++ ", " ++ jsToFixed6 (-122) :=
  ⟨Or.inl ⟨"lookup failed", rfl⟩,
    reverseGeocode_fallback_format 37 (-122) _ (Or.inl ⟨"lookup failed", rfl⟩)⟩

/-- C1: on a region-enter event whose id matches a stored reminder with `isActive`
true (with dispatch and store write succeeding), `handleGeofenceEnter` dispatches
exactly one notification carrying that reminder's `notificationTitle` and
`notificationBody`, and then (in that order) marks the reminder triggered, after which
`getReminder` shows `triggeredAt` set to a time at least the call time. -/
theorem handleGeofenceEnter_active_dispatches_then_marks
    (now : Nat) (rid : String) (db : ReminderTable) (sent : List LocalNotification)
    (r : Reminder) (hfind : db.find? (fun x => x.id == rid) = some r)
    (hact : r.isActive = true) :
    ∃ db' : ReminderTable,
      handleGeofenceEnter true true now rid ⟨some db, sent⟩ =
        Except.ok (⟨some db', sent ++ [notifOf r]⟩,
          [TriggerEffect.dispatched (notifOf r), TriggerEffect.markedTriggered rid now]) ∧
      (notifOf r).title = r.notificationTitle ∧ (notifOf r).body = r.notificationBody ∧
      ∃ r' : Reminder, getReminder (some db') rid = Except.ok (some r') ∧
        ∃ t : Nat, r'.triggeredAt = some t ∧ now ≤ t := by
  have hg : getReminder (some db) rid = Except.ok (some r) := by
    simp [getReminder, hfind]
  have hid : (r.id == rid) = true := by simpa using List.find?_some hfind
  refine ⟨db.map (fun x => if x.id == rid then
    patchedReminder { triggeredAt := some now } x else x), ?_, rfl, rfl, ?_⟩
  · simp only [handleGeofenceEnter, handleGeofenceEnterBody, hg, hact, eq_self_iff_true,
      if_true, scheduleLocationNotification, markReminderAsTriggered, updateReminder_some_eq,
      List.singleton_append, List.cons_append, List.nil_append]
  · have hpres : ∀ x : Reminder,
        ((if x.id == rid then patchedReminder { triggeredAt := some now } x else x).id ==
          rid) = (x.id == rid) := by
      intro x
      by_cases hx : (x.id == rid) = true
      · rw [if_pos hx, patchedReminder_id, hx]
      · rw [if_neg hx]
    have hf := find?_map_preserving (fun x => x.id == rid)
      (fun x => if x.id == rid then patchedReminder { triggeredAt := some now } x else x)
      hpres db r hfind
    refine ⟨patchedReminder { triggeredAt := some now } r, ?_, now, rfl, le_refl now⟩
    simp only [getReminder]
    rw [hf]
    simp only [hid, eq_self_iff_true, if_true]

/-- C1 witness: entering region `r1` with `sampleReminder` stored fires its
notification and marks it triggered at time 9. -/
theorem handleGeofenceEnter_active_witness :
    ([sampleReminder].find? (fun x => x.id == "r1") = some sampleReminder) ∧
    sampleReminder.isActive = true ∧
    (∃ db' : ReminderTable,
      handleGeofenceEnter true true 9 ("r1") ⟨some [sampleReminder], []⟩ =
        Except.ok (⟨some db', [] ++ [notifOf sampleReminder]⟩,
          [TriggerEffect.dispatched (notifOf sampleReminder),
            TriggerEffect.markedTriggered ("r1") 9]) ∧
      (notifOf sampleReminder).title = sampleReminder.notificationTitle ∧
      (notifOf sampleReminder).body = sampleReminder.notificationBody ∧
      ∃ r' : Reminder, getReminder (some db') ("r1") = Except.ok (some r') ∧
        ∃ t : Nat, r'.triggeredAt = some t ∧ 9 ≤ t) :=
  ⟨rfl, rfl, handleGeofenceEnter_active_dispatches_then_marks 9 ("r1") [sampleReminder] []
    sampleReminder rfl rfl⟩

/-- C4: on a region-enter event whose id matches no stored reminder, or matches one
with `isActive` false, `handleGeofenceEnter` dispatches nothing, leaves the store
untouched, and resolves without error — for every dispatch/write outcome. -/
theorem handleGeofenceEnter_missing_or_inactive_noop
    (dOk wOk : Bool) (now : Nat) (rid : String) (db : ReminderTable)
    (sent : List LocalNotification)
    (h : db.find? (fun x => x.id == rid) = none ∨
      ∃ r, db.find? (fun x => x.id == rid) = some r ∧ r.isActive = false) :
    handleGeofenceEnter dOk wOk now rid ⟨some db, sent⟩ =
      Except.ok (⟨some db, sent⟩, []) := by
  rcases h with hnone | ⟨r, hsome, hin⟩
  · have hg : getReminder (some db) rid = Except.ok none := by
      simp [getReminder, hnone]
    simp only [handleGeofenceEnter, handleGeofenceEnterBody, hg]
  · have hg : getReminder (some db) rid = Except.ok (some r) := by
      simp [getReminder, hsome]
    simp only [handleGeofenceEnter, handleGeofenceEnterBody, hg, hin]
    rw [if_neg (by simp : ¬(false = true))]

/-- C4 witness: entering region `r2` with only the inactive reminder stored does
nothing. -/
theorem handleGeofenceEnter_missing_or_inactive_noop_witness :
    handleGeofenceEnter true true 9 ("r2") ⟨some [inactiveReminder], []⟩ =
      Except.ok (⟨some [inactiveReminder], []⟩, []) :=
  handleGeofenceEnter_missing_or_inactive_noop true true 9 ("r2") [inactiveReminder] []
    (Or.inr ⟨inactiveReminder, rfl, rfl⟩)

/-- C5: `handleGeofenceEnter` never propagates an error: for every store and dispatcher
state it resolves normally; in particular a store-lookup failure (database never
initialized) resolves with nothing done, a dispatch failure resolves with no
notification and no store mutation, and a `markTriggered` write failure resolves with
the already-dispatched notification kept but the store unchanged. -/
theorem handleGeofenceEnter_never_throws :
    (∀ (dOk wOk : Bool) (now : Nat) (rid : String) (st : TriggerState),
      ∃ res, handleGeofenceEnter dOk wOk now rid st = Except.ok res) ∧
    (∀ (dOk wOk : Bool) (now : Nat) (rid : String) (sent : List LocalNotification),
      handleGeofenceEnter dOk wOk now rid ⟨none, sent⟩ = Except.ok (⟨none, sent⟩, [])) ∧
    (∀ (wOk : Bool) (now : Nat) (rid : String) (db : ReminderTable)
      (sent : List LocalNotification) (r : Reminder),
      db.find? (fun x => x.id == rid) = some r → r.isActive = true →
      handleGeofenceEnter false wOk now rid ⟨some db, sent⟩ =
        Except.ok (⟨some db, sent⟩, [])) ∧
    (∀ (now : Nat) (rid : String) (db : ReminderTable) (sent : List LocalNotification)
      (r : Reminder),
      db.find? (fun x => x.id == rid) = some r → r.isActive = true →
      handleGeofenceEnter true false now rid ⟨some db, sent⟩ =
        Except.ok (⟨some db, sent ++ [notifOf r]⟩,
          [TriggerEffect.dispatched (notifOf r)])) := by
  refine ⟨?_, ?_, ?_, ?_⟩
  · intro dOk wOk now rid st
    cases hb : handleGeofenceEnterBody dOk wOk now rid st with
    | ok v => exact ⟨v, by simp [handleGeofenceEnter, hb]⟩
    | error e =>
      obtain ⟨s, effs, msg⟩ := e
      exact ⟨(s, effs), by simp [handleGeofenceEnter, hb]⟩
  · intro dOk wOk now rid sent
    rfl
  · intro wOk now rid db sent r hfind hact
    have hg : getReminder (some db) rid = Except.ok (some r) := by
      simp [getReminder, hfind]
    simp only [handleGeofenceEnter, handleGeofenceEnterBody, hg, hact, eq_self_iff_true,
      if_true, scheduleLocationNotification]
    rw [if_neg (by simp : ¬(false = true))]
  · intro now rid db sent r hfind hact
    have hg : getReminder (some db) rid = Except.ok (some r) := by
      simp [getReminder, hfind]
    have hmark : markReminderAsTriggered false (some db) rid now =
        Except.error ("StorageError") := rfl
    simp only [handleGeofenceEnter, handleGeofenceEnterBody, hg, hact, eq_self_iff_true,
      if_true, scheduleLocationNotification, hmark]

/-- C5 witness: a dispatch failure on an active reminder is caught, leaving the state
untouched. -/
theorem handleGeofenceEnter_never_throws_witness :
    ([sampleReminder].find? (fun x => x.id == "r1") = some sampleReminder) ∧
    sampleReminder.isActive = true ∧
    handleGeofenceEnter false true 9 ("r1") ⟨some [sampleReminder], []⟩ =
      Except.ok (⟨some [sampleReminder], []⟩, []) :=
  ⟨rfl, rfl, handleGeofenceEnter_never_throws.2.2.1 true 9 ("r1") [sampleReminder] []
    sampleReminder rfl rfl⟩

end RemindMe
